import Mathlib

/-!
Verification development for the Dudil chat application.

Shallow embedding of the session/chat-history core:
- `utils.py` (emotion analysis, chat-history load/save, chat id and title helpers),
- `sidebar.py` (new-chat / load-chat / delete-chat button handlers),
- `src/core/session_manager.py` (the `SessionManager` lifecycle variant).

Python `str` is modelled as Lean `String` (Python indexes/slices by code
point, matching `String.data : List Char`); Python `float` as `ℚ` (only
comparisons and exact JSON round-trips occur, no rounding arithmetic);
Python `dict` as an association list with first-occurrence lookup, updated
in place by `dictInsert` / `dictErase` exactly as `d[k] = v` / `del d[k]`
behave on dictionaries (whose keys are unique); fallible operations return
`Option` or carry an explicit error constructor; the filesystem is modelled
explicitly and passed through state.
-/

namespace Dudil

/-! ## Python dict primitives -/

/-- Lookup in a Python dict modelled as an association list
(first occurrence wins; dict keys are unique so this is exact). -/
def dictLookup {α : Type} : List (String × α) → String → Option α
  | [], _ => none
  | (k, v) :: rest, key => if k = key then some v else dictLookup rest key

/-- Python `d[key] = v`: replace in place if the key is present, else append. -/
def dictInsert {α : Type} : List (String × α) → String → α → List (String × α)
  | [], key, v => [(key, v)]
  | (k, w) :: rest, key, v =>
      if k = key then (key, v) :: rest else (k, w) :: dictInsert rest key v

/-- Python `del d[key]`: remove the (unique) binding of `key` if present. -/
def dictErase {α : Type} : List (String × α) → String → List (String × α)
  | [], _ => []
  | (k, w) :: rest, key => if k = key then rest else (k, w) :: dictErase rest key

/-! ## Python string primitives -/

/-- Python slice `s[:n]` (by code points). -/
def py_slice (s : String) (n : Nat) : String := ⟨s.data.take n⟩

/-- Python `str.lower()` restricted to the ASCII case mapping used here. -/
def py_lower (s : String) : String := ⟨s.data.map Char.toLower⟩

/-- Python whitespace characters recognised by `str.strip()`
(ASCII subset; other Unicode space characters are not exercised here). -/
def pyIsSpace (c : Char) : Bool :=
  c == ' ' || c == '\t' || c == '\n' || c == '\r' || c == '\x0B' || c == '\x0C'

/-- Python `not text or not text.strip()`: true iff every character is
whitespace (vacuously true for the empty string, matching falsiness). -/
def py_stripped_empty (text : String) : Bool := text.data.all pyIsSpace

/-! ## Data model: scored labels, emotion results, messages, chat records -/

/-- One classifier output entry, a Python dict with `label` and `score` keys. -/
structure ScoredLabel where
  label : String
  score : ℚ
  deriving Repr, DecidableEq

/-- The dictionary returned by `utils.analyze_emotion`: keys `emotion`,
`confidence`, `intensity`, `model_type` always present, `raw_results`
present only on the successful classification path. -/
structure EmotionResult where
  emotion : String
  confidence : ℚ
  intensity : ℤ
  raw_results : Option (List ScoredLabel)
  model_type : String
  deriving Repr, DecidableEq

/-- One conversation turn as built in `app.py` (`handle_user_input`):
user messages carry an `emotion_analysis` key, assistant messages do not. -/
structure Message where
  role : String
  content : String
  timestamp : String
  emotion_analysis : Option EmotionResult
  deriving Repr, DecidableEq

/-- An archived session record: the value stored under a `chat_id` key in the
chat-history map, a dict with `messages`, `title` and `timestamp`. -/
structure ChatRecord where
  messages : List Message
  title : String
  timestamp : String
  deriving Repr, DecidableEq

/-- A `ChatHistoryMap`: Python dict from `chat_id` to archived record. -/
abbrev ChatHistoryMap : Type := List (String × ChatRecord)

/-! ## utils.py: emotion analysis -/

/-- The `emotion_to_intensity` dict lookup `.get(emotion, 3)` in
`utils.analyze_emotion`. -/
def emotion_to_intensity (emotion : String) : ℤ :=
  if emotion = "joy" then 5
  else if emotion = "love" then 5
  else if emotion = "surprise" then 4
  else if emotion = "anger" then 2
  else if emotion = "fear" then 2
  else if emotion = "sadness" then 1
  else 3

/-- Python `max(results, key=lambda x: x['score'])`: scans left to right
keeping the current best, replacing only on a strictly greater score
(so the first maximal element wins). -/
def py_max (best : ScoredLabel) : List ScoredLabel → ScoredLabel
  | [] => best
  | x :: xs => if best.score < x.score then py_max x xs else py_max best xs

/-- Possible behaviours of the `emotion_pipeline(...)` call: it may raise,
return a flat list of score dicts, or (with `return_all_scores=True`) a
list of lists that `analyze_emotion` unwraps by taking the first element. -/
inductive PipeResult where
  | raised
  | flat (results : List ScoredLabel)
  | nested (results : List (List ScoredLabel))

/-- The `emotion_model_data` argument of `utils.analyze_emotion`: either
`None` / `(None, _)`, or a usable `(pipeline, model_type)` pair. The
pipeline is an opaque function of the (truncated) input text. -/
inductive ModelData where
  | unavailable
  | available (classifier : String → PipeResult) (model_type : String)

/-- The successful-classification result dict in `utils.analyze_emotion`. -/
def success_result (best : ScoredLabel) (results : List ScoredLabel)
    (model_type : String) : EmotionResult :=
  { emotion := py_lower best.label
    confidence := best.score
    intensity := emotion_to_intensity (py_lower best.label)
    raw_results := some results
    model_type := model_type }

/-- The fallback dict returned by `utils.analyze_emotion` when the model is
missing or any exception is raised inside the `try` block. -/
def error_result (model_type : String) : EmotionResult :=
  { emotion := "neutral", confidence := 0, intensity := 3
    raw_results := none, model_type := model_type }

/-- `utils.analyze_emotion`. Faithful to the source control flow:
model-unavailable check; empty/whitespace short-circuit (before any
pipeline call); pipeline call on `text[:512]`; unwrap of a nested result
list; `max(...)` over the results, which raises `ValueError` on an empty
list and lands in the `except` fallback; intensity via
`emotion_to_intensity.get(label.lower(), 3)`. Every exception path is
caught, so the function is total. -/
def analyze_emotion (text : String) (md : ModelData) : EmotionResult :=
  match md with
  | .unavailable => error_result "none"
  | .available classifier model_type =>
    if py_stripped_empty text then
      { emotion := "neutral", confidence := 1/2, intensity := 3
        raw_results := none, model_type := model_type }
    else
      match classifier (py_slice text 512) with
      | .raised => error_result model_type
      | .flat [] => error_result model_type
      | .flat (r :: rest) => success_result (py_max r rest) (r :: rest) model_type
      | .nested [] => error_result model_type
      | .nested ([] :: _) => error_result model_type
      | .nested ((r :: rest) :: _) => success_result (py_max r rest) (r :: rest) model_type

/-! ## utils.py: chat id and title -/

/-- `utils.create_new_chat`: id from the current second-granularity
timestamp only — no random suffix. -/
def create_new_chat (ts : String) : String := "chat_" ++ ts

/-- The chat-id generation inside `SessionManager.create_new_chat`:
timestamp plus the first 8 hex characters of a fresh `uuid4`. -/
def sm_new_chat_id (ts suffix : String) : String :=
  "chat_" ++ ts ++ "_" ++ suffix

/-- `utils.get_chat_title`. -/
def get_chat_title (messages : List Message) : String :=
  match messages with
  | [] => "New Chat"
  | first :: _ =>
      if first.content.length > 30 then py_slice first.content 30 ++ "..."
      else first.content

/-- The title function as the spec words it (C8): `"New Chat"` on empty;
verbatim content when at most 30 characters; first 30 characters plus
`"..."` when longer. Stated independently for comparison with
`get_chat_title`. -/
def spec_title (messages : List Message) : String :=
  match messages with
  | [] => "New Chat"
  | first :: _ =>
      if first.content.length ≤ 30 then first.content
      else py_slice first.content 30 ++ "..."

/-! ## JSON values

The persisted files hold JSON documents. `Json` models the values that
Python's `json` module reads and writes; `json.dump` followed by
`json.load` is the identity on such values (its documented contract), so
the file model stores `Json` trees and the repository's own
encoding/decoding of the chat data model is what is verified. -/

inductive Json where
  | null
  | bool (b : Bool)
  | num (q : ℚ)
  | str (s : String)
  | arr (elements : List Json)
  | obj (fields : List (String × Json))

/-! ## Encoding the chat data model to JSON (the dict shapes the code builds) -/

/-- JSON shape of one `raw_results` entry. -/
def encodeScored (x : ScoredLabel) : Json :=
  .obj [("label", .str x.label), ("score", .num x.score)]

/-- JSON shape of a `raw_results` list. -/
def encodeScoredList : List ScoredLabel → List Json
  | [] => []
  | x :: xs => encodeScored x :: encodeScoredList xs

/-- JSON shape of an `analyze_emotion` result dict, with `raw_results`
present only when the Python dict carries that key. -/
def encodeEmotion (e : EmotionResult) : Json :=
  match e.raw_results with
  | none =>
      .obj [("emotion", .str e.emotion), ("confidence", .num e.confidence),
            ("intensity", .num (e.intensity : ℚ)), ("model_type", .str e.model_type)]
  | some rs =>
      .obj [("emotion", .str e.emotion), ("confidence", .num e.confidence),
            ("intensity", .num (e.intensity : ℚ)),
            ("raw_results", .arr (encodeScoredList rs)),
            ("model_type", .str e.model_type)]

/-- JSON shape of a message dict as built in `app.py`. -/
def encodeMessage (m : Message) : Json :=
  match m.emotion_analysis with
  | none =>
      .obj [("role", .str m.role), ("content", .str m.content),
            ("timestamp", .str m.timestamp)]
  | some e =>
      .obj [("role", .str m.role), ("content", .str m.content),
            ("emotion_analysis", encodeEmotion e),
            ("timestamp", .str m.timestamp)]

/-- JSON shape of a message list. -/
def encodeMessageList : List Message → List Json
  | [] => []
  | m :: ms => encodeMessage m :: encodeMessageList ms

/-- JSON shape of an archived chat record. -/
def encodeChatRecord (r : ChatRecord) : Json :=
  .obj [("messages", .arr (encodeMessageList r.messages)),
        ("title", .str r.title), ("timestamp", .str r.timestamp)]

/-- JSON fields of a `ChatHistoryMap`. -/
def encodeHistFields : List (String × ChatRecord) → List (String × Json)
  | [] => []
  | (k, r) :: rest => (k, encodeChatRecord r) :: encodeHistFields rest

/-- JSON shape of a whole `ChatHistoryMap` (the single-user on-disk document). -/
def encodeChatHistory (h : ChatHistoryMap) : Json :=
  .obj (encodeHistFields h)

/-! ## Decoding JSON back to the chat data model -/

/-- Decode one `raw_results` entry. -/
def decodeScored : Json → Option ScoredLabel
  | .obj fields =>
    match dictLookup fields "label", dictLookup fields "score" with
    | some (.str l), some (.num q) => some ⟨l, q⟩
    | _, _ => none
  | _ => none

/-- Decode a `raw_results` list. -/
def decodeScoredList : List Json → Option (List ScoredLabel)
  | [] => some []
  | j :: js =>
    match decodeScored j, decodeScoredList js with
    | some x, some xs => some (x :: xs)
    | _, _ => none

/-- Decode an emotion-analysis dict. -/
def decodeEmotion : Json → Option EmotionResult
  | .obj fields =>
    match dictLookup fields "emotion", dictLookup fields "confidence",
          dictLookup fields "intensity", dictLookup fields "model_type" with
    | some (.str em), some (.num conf), some (.num inten), some (.str mt) =>
      if inten.den = 1 then
        match dictLookup fields "raw_results" with
        | none => some ⟨em, conf, inten.num, none, mt⟩
        | some (.arr js) =>
          match decodeScoredList js with
          | some xs => some ⟨em, conf, inten.num, some xs, mt⟩
          | none => none
        | some _ => none
      else none
    | _, _, _, _ => none
  | _ => none

/-- Decode a message dict. -/
def decodeMessage : Json → Option Message
  | .obj fields =>
    match dictLookup fields "role", dictLookup fields "content",
          dictLookup fields "timestamp" with
    | some (.str r), some (.str c), some (.str t) =>
      match dictLookup fields "emotion_analysis" with
      | none => some ⟨r, c, t, none⟩
      | some je =>
        match decodeEmotion je with
        | some e => some ⟨r, c, t, some e⟩
        | none => none
    | _, _, _ => none
  | _ => none

/-- Decode a message list. -/
def decodeMessageList : List Json → Option (List Message)
  | [] => some []
  | j :: js =>
    match decodeMessage j, decodeMessageList js with
    | some m, some ms => some (m :: ms)
    | _, _ => none

/-- Decode an archived chat record. -/
def decodeChatRecord : Json → Option ChatRecord
  | .obj fields =>
    match dictLookup fields "messages", dictLookup fields "title",
          dictLookup fields "timestamp" with
    | some (.arr js), some (.str ti), some (.str ts) =>
      match decodeMessageList js with
      | some ms => some ⟨ms, ti, ts⟩
      | none => none
    | _, _, _ => none
  | _ => none

/-- Decode the fields of a `ChatHistoryMap` document. -/
def decodeHistFields : List (String × Json) → Option (List (String × ChatRecord))
  | [] => some []
  | (k, j) :: rest =>
    match decodeChatRecord j, decodeHistFields rest with
    | some r, some rs => some ((k, r) :: rs)
    | _, _ => none

/-- Decode a whole `ChatHistoryMap` document. -/
def decodeChatHistory : Json → Option ChatHistoryMap
  | .obj fields => decodeHistFields fields
  | _ => none

/-! ## Filesystem model -/

/-- Contents of a persisted file path: absent, bytes that parse as JSON
value `j`, or bytes that fail JSON parsing. -/
inductive FileContent where
  | absent
  | valid (j : Json)
  | invalid (raw : String)

/-- The filesystem as the chat-history code sees it: the chat-history file
itself, plus at most one quarantine backup written by corruption recovery
(recorded as backup path and the raw bytes moved there). -/
structure FileSystem where
  chatHistoryFile : FileContent
  backupFile : Option (String × String)

/-- The fixed path `CHAT_HISTORY_FILE` of `utils.py`. -/
def CHAT_HISTORY_FILE : String := "chat_history.json"

/-- The quarantine path built in `utils.load_chat_history` from the current
timestamp. -/
def backup_name (ts : String) : String :=
  "chat_history_backup_" ++ ts ++ ".json"

/-- `utils.load_chat_history`: absent file yields an empty dict; a valid
file yields its parsed value; invalid bytes are caught
(`json.JSONDecodeError` / `UnicodeDecodeError`), the file is renamed to a
timestamped backup, and an empty dict is returned. `now_ts` is the
`datetime.now().strftime(...)` value at the time of the call. -/
def load_chat_history (fs : FileSystem) (now_ts : String) : Json × FileSystem :=
  match fs.chatHistoryFile with
  | .absent => (.obj [], fs)
  | .valid j => (j, fs)
  | .invalid raw =>
      (.obj [], { chatHistoryFile := .absent
                  backupFile := some (backup_name now_ts, raw) })

/-- `utils.save_chat_history`: overwrite the chat-history file with the
serialized map. -/
def save_chat_history (fs : FileSystem) (history : Json) : FileSystem :=
  { fs with chatHistoryFile := .valid history }

/-! ## Single-user app state and sidebar transitions (`sidebar.py`) -/

/-- The `st.session_state` fields relevant to the chat lifecycle in
`app.py` / `sidebar.py`, together with the filesystem. -/
structure AppState where
  messages : List Message
  current_chat_id : String
  chat_history : ChatHistoryMap
  fs : FileSystem

/-- `sidebar.handle_new_chat`, body of the New Chat button click: archive
the current session under `current_chat_id` and persist — but only when
`st.session_state.messages` is non-empty — then install a fresh id from
`utils.create_new_chat` and clear the message list. `now_iso` is
`datetime.now().isoformat()`, `ts` the strftime timestamp used for the
new id. -/
def handle_new_chat (st : AppState) (now_iso ts : String) : AppState :=
  let st1 :=
    if st.messages.isEmpty then st
    else
      let hist := dictInsert st.chat_history st.current_chat_id
        ⟨st.messages, get_chat_title st.messages, now_iso⟩
      { st with chat_history := hist
                fs := save_chat_history st.fs (encodeChatHistory hist) }
  { st1 with current_chat_id := create_new_chat ts, messages := [] }

/-- `sidebar.render_chat_item`, body of the load-chat button click:
archive the current session if non-empty, switch to the clicked chat
(whose record `chat_data` was read from the history map before archiving),
then persist the whole map. -/
def sidebar_load_chat (st : AppState) (chat_id : String) (chat_data : ChatRecord)
    (now_iso : String) : AppState :=
  let hist :=
    if st.messages.isEmpty then st.chat_history
    else dictInsert st.chat_history st.current_chat_id
      ⟨st.messages, get_chat_title st.messages, now_iso⟩
  { messages := chat_data.messages
    current_chat_id := chat_id
    chat_history := hist
    fs := save_chat_history st.fs (encodeChatHistory hist) }

/-- `sidebar.render_chat_item`, body of the delete button click: if the
deleted id is the active one, install a fresh id and clear the messages
(no archiving); delete the entry (`del`, only reachable for ids present in
the map); persist. -/
def sidebar_delete_chat (st : AppState) (chat_id ts : String) : AppState :=
  let st1 :=
    if chat_id = st.current_chat_id then
      { st with current_chat_id := create_new_chat ts, messages := [] }
    else st
  let hist := dictErase st1.chat_history chat_id
  { st1 with chat_history := hist
             fs := save_chat_history st1.fs (encodeChatHistory hist) }

/-! ## SessionManager state and transitions (`src/core/session_manager.py`) -/

/-- The `st.session_state` fields relevant to the `SessionManager`
lifecycle, with the multi-user data file `data/chat_history.json`. -/
structure SMState where
  messages : List Message
  current_chat_id : String
  chat_history : ChatHistoryMap
  user_id : String
  fs : FileSystem

/-- `SessionManager._load_persisted_data`, chat-history part: read
`data/chat_history.json`; if the current user has an entry, install it as
the in-memory history; any exception (including invalid JSON) is swallowed
by `except: pass` — nothing is renamed or backed up. Returns the resulting
in-memory history given the prior one, and the (unchanged) filesystem. -/
def sm_load_persisted_data (fs : FileSystem) (user_id : String)
    (current : ChatHistoryMap) : ChatHistoryMap × FileSystem :=
  match fs.chatHistoryFile with
  | .absent => (current, fs)
  | .valid (.obj doc) =>
      (match dictLookup doc user_id with
       | some h =>
           (match decodeChatHistory h with
            | some hist => hist
            | none => current)
       | none => current, fs)
  | .valid _ => (current, fs)
  | .invalid _ => (current, fs)

/-- `SessionManager.save_chat_history`, the file update: read the full
multi-user document (empty when the file is absent), replace only the
current user's entry, write the whole document back. When the existing
file does not parse, or holds something a string cannot index, the raised
exception is caught and nothing is written. -/
def sm_save_file (fs : FileSystem) (user_id : String) (hist : Json) : FileSystem :=
  match fs.chatHistoryFile with
  | .absent => { fs with chatHistoryFile := .valid (.obj (dictInsert [] user_id hist)) }
  | .valid (.obj doc) =>
      { fs with chatHistoryFile := .valid (.obj (dictInsert doc user_id hist)) }
  | .valid _ => fs
  | .invalid _ => fs

/-- `SessionManager.save_chat_history` acting on the whole state. -/
def sm_save_chat_history (st : SMState) : SMState :=
  { st with fs := sm_save_file st.fs st.user_id (encodeChatHistory st.chat_history) }

/-- `SessionManager.create_new_chat`: install a fresh timestamp-plus-uuid
id and clear the message list. Nothing is archived and nothing is
persisted. -/
def sm_create_new_chat (st : SMState) (ts suffix : String) : SMState :=
  { st with current_chat_id := sm_new_chat_id ts suffix, messages := [] }

/-- `SessionManager.switch_chat`: if the id is present, make it current and
load its archived messages; otherwise warn "Chat not found" and change
nothing. The returned flag records whether the warning was shown. The
current session is never archived here. -/
def switch_chat (st : SMState) (chat_id : String) : SMState × Bool :=
  match dictLookup st.chat_history chat_id with
  | some r => ({ st with current_chat_id := chat_id, messages := r.messages }, false)
  | none => (st, true)

/-- `SessionManager.delete_chat`: if the id is present, delete its entry;
if it was the current chat, run `create_new_chat`; then persist via
`save_chat_history`. Absent ids are a silent no-op. -/
def delete_chat (st : SMState) (chat_id ts suffix : String) : SMState :=
  match dictLookup st.chat_history chat_id with
  | none => st
  | some _ =>
    let st1 := { st with chat_history := dictErase st.chat_history chat_id }
    let st2 :=
      if chat_id = st1.current_chat_id then sm_create_new_chat st1 ts suffix
      else st1
    sm_save_chat_history st2

/-! ## Helper lemmas: dict operations -/

theorem dictLookup_dictInsert_self {α : Type} (d : List (String × α)) (k : String) (v : α) :
    dictLookup (dictInsert d k v) k = some v := by
  induction d with
  | nil => simp [dictInsert, dictLookup]
  | cons p rest ih =>
    obtain ⟨k1, v1⟩ := p
    by_cases h : k1 = k
    · simp [dictInsert, h, dictLookup]
    · simp [dictInsert, h, dictLookup, ih]

theorem dictLookup_dictInsert_ne {α : Type} (d : List (String × α)) (k k2 : String) (v : α)
    (h : k2 ≠ k) : dictLookup (dictInsert d k v) k2 = dictLookup d k2 := by
  induction d with
  | nil => simp [dictInsert, dictLookup, Ne.symm h]
  | cons p rest ih =>
    obtain ⟨k1, v1⟩ := p
    by_cases h1 : k1 = k
    · subst h1
      simp [dictInsert, dictLookup, Ne.symm h]
    · by_cases h2 : k1 = k2
      · subst h2
        simp [dictInsert, h1, dictLookup]
      · simp [dictInsert, h1, dictLookup, h2, ih]

theorem dictLookup_eq_none_of_not_mem {α : Type} (d : List (String × α)) (k : String)
    (h : k ∉ d.map Prod.fst) : dictLookup d k = none := by
  induction d with
  | nil => rfl
  | cons p rest ih =>
    obtain ⟨k1, v1⟩ := p
    simp only [List.map_cons, List.mem_cons, not_or] at h
    simp [dictLookup, Ne.symm h.1, ih h.2]

theorem dictLookup_dictErase_self {α : Type} (d : List (String × α)) (k : String)
    (h : (d.map Prod.fst).Nodup) : dictLookup (dictErase d k) k = none := by
  induction d with
  | nil => rfl
  | cons p rest ih =>
    obtain ⟨k1, v1⟩ := p
    simp only [List.map_cons, List.nodup_cons] at h
    by_cases h1 : k1 = k
    · subst h1
      simpa [dictErase] using dictLookup_eq_none_of_not_mem rest k1 h.1
    · simp [dictErase, h1, dictLookup, ih h.2]

/-! ## Helper lemmas: strings -/

theorem string_data_append (a b : String) : (a ++ b).data = a.data ++ b.data := by
  cases a
  cases b
  rfl

theorem string_length_append (a b : String) : (a ++ b).length = a.length + b.length := by
  show (a ++ b).data.length = a.data.length + b.data.length
  rw [string_data_append, List.length_append]

theorem string_append_right_inj (p a b : String) (h : p ++ a = p ++ b) : a = b := by
  have hd : p.data ++ a.data = p.data ++ b.data := by
    have hc := congrArg String.data h
    simpa [string_data_append] using hc
  have hab : a.data = b.data := by
    exact List.append_cancel_left hd
  cases a
  cases b
  exact congrArg String.mk hab

/-! ## Helper lemmas: the intensity mapping -/

theorem emotion_to_intensity_bounds (e : String) :
    1 ≤ emotion_to_intensity e ∧ emotion_to_intensity e ≤ 5 := by
  unfold emotion_to_intensity
  split_ifs <;> norm_num

theorem emotion_to_intensity_unmapped (e : String)
    (h : e ∉ (["joy", "love", "surprise", "anger", "fear", "sadness"] : List String)) :
    emotion_to_intensity e = 3 := by
  simp only [List.mem_cons, List.mem_singleton, not_or] at h
  obtain ⟨h1, h2, h3, h4, h5, h6⟩ := h
  simp [emotion_to_intensity, h1, h2, h3, h4, h5, h6]

/-! ## Claim C8 -/

/-- C8: for every message list, the derived title is `"New Chat"` when the
list is empty, the first message's content verbatim when that content has
at most 30 characters, and its first 30 characters followed by `"..."`
when it exceeds 30 characters: `get_chat_title` agrees with the
spec-worded `spec_title` on every input. -/
theorem C8_title_derivation (messages : List Message) :
    get_chat_title messages = spec_title messages := by
  cases messages with
  | nil => rfl
  | cons m ms =>
    simp only [get_chat_title, spec_title]
    split_ifs <;> first | rfl | omega

/-! ## Claim C3 -/

/-- C3 counterexample: `utils.create_new_chat` derives the chat id from the
second-granularity timestamp alone — there is no random suffix, so two
sessions created within the same second (hence with the same strftime
value) receive the SAME chat id, not distinct ones. -/
theorem C3_counterexample :
    create_new_chat "20251012_120000" = create_new_chat "20251012_120000" ∧
    create_new_chat "20251012_120000" = "chat_20251012_120000" :=
  ⟨rfl, rfl⟩

/-- C3 (amended): only `SessionManager.create_new_chat` generates the chat
id from a timestamp plus a random suffix; for it, two sessions created
within the same second receive distinct chat ids whenever their random
suffixes differ. The single-user `utils.create_new_chat` uses the
timestamp alone, so two sessions created within the same second collide. -/
theorem C3_sm_id_uniqueness (ts s1 s2 : String) (h : s1 ≠ s2) :
    sm_new_chat_id ts s1 ≠ sm_new_chat_id ts s2 := by
  intro hc
  simp only [sm_new_chat_id] at hc
  exact h (string_append_right_inj ("chat_" ++ ts ++ "_") s1 s2 hc)

theorem C3_sm_id_uniqueness_witness :
    sm_new_chat_id "20251012_120000" "a3f9c2d1" ≠ sm_new_chat_id "20251012_120000" "b7e04f55" :=
  C3_sm_id_uniqueness "20251012_120000" "a3f9c2d1" "b7e04f55" (by decide)

/-! ## Claim C7 -/

/-- C7: switching to a chat identifier not present in the chat-history map
is a no-op: the whole state (in particular the active `current_chat_id`
and `messages`) is returned unchanged, the not-found warning flag is
reported, and no exception is raised (`switch_chat` is total). -/
theorem C7_switch_missing_noop (st : SMState) (chat_id : String)
    (h : dictLookup st.chat_history chat_id = none) :
    switch_chat st chat_id = (st, true) := by
  simp [switch_chat, h]

theorem C7_witness :
    switch_chat
        (⟨[⟨"user", "hello", "t1", none⟩], "chat_A",
          [("chat_B", ⟨[], "New Chat", "t0"⟩)], "u", ⟨.absent, none⟩⟩ : SMState)
        "chat_missing"
      = ((⟨[⟨"user", "hello", "t1", none⟩], "chat_A",
          [("chat_B", ⟨[], "New Chat", "t0"⟩)], "u", ⟨.absent, none⟩⟩ : SMState), true) :=
  C7_switch_missing_noop _ "chat_missing" rfl

/-! ## Helper lemmas: JSON round-trip of the chat data model -/

theorem decodeScored_encodeScored (x : ScoredLabel) :
    decodeScored (encodeScored x) = some x := by
  cases x
  rfl

theorem decodeScoredList_encodeScoredList (xs : List ScoredLabel) :
    decodeScoredList (encodeScoredList xs) = some xs := by
  induction xs with
  | nil => rfl
  | cons x rest ih =>
    simp [encodeScoredList, decodeScoredList, decodeScored_encodeScored, ih]

theorem decodeEmotion_encodeEmotion (e : EmotionResult) :
    decodeEmotion (encodeEmotion e) = some e := by
  obtain ⟨em, conf, inten, rr, mt⟩ := e
  cases rr with
  | none => simp [encodeEmotion, decodeEmotion, dictLookup]
  | some rs =>
    simp [encodeEmotion, decodeEmotion, dictLookup, decodeScoredList_encodeScoredList]

theorem decodeMessage_encodeMessage (m : Message) :
    decodeMessage (encodeMessage m) = some m := by
  obtain ⟨r, c, t, ea⟩ := m
  cases ea with
  | none => simp [encodeMessage, decodeMessage, dictLookup]
  | some e =>
    simp [encodeMessage, decodeMessage, dictLookup, decodeEmotion_encodeEmotion]

theorem decodeMessageList_encodeMessageList (ms : List Message) :
    decodeMessageList (encodeMessageList ms) = some ms := by
  induction ms with
  | nil => rfl
  | cons m rest ih =>
    simp [encodeMessageList, decodeMessageList, decodeMessage_encodeMessage, ih]

theorem decodeChatRecord_encodeChatRecord (r : ChatRecord) :
    decodeChatRecord (encodeChatRecord r) = some r := by
  obtain ⟨ms, ti, ts⟩ := r
  simp [encodeChatRecord, decodeChatRecord, dictLookup, decodeMessageList_encodeMessageList]

theorem decodeHistFields_encodeHistFields (h : List (String × ChatRecord)) :
    decodeHistFields (encodeHistFields h) = some h := by
  induction h with
  | nil => rfl
  | cons p rest ih =>
    obtain ⟨k, r⟩ := p
    simp [encodeHistFields, decodeHistFields, decodeChatRecord_encodeChatRecord, ih]

theorem decodeChatHistory_encodeChatHistory (h : ChatHistoryMap) :
    decodeChatHistory (encodeChatHistory h) = some h := by
  simp [encodeChatHistory, decodeChatHistory, decodeHistFields_encodeHistFields]

/-! ## Claim C4 -/

/-- C4: saving a `ChatHistoryMap` to the single-user store and loading it
back yields a deep-equal map — every chat id, message (role, content,
timestamp), and every emotion-metadata field (emotion, confidence,
intensity, raw scores, model identifier) is recovered exactly, whatever
the previous file contents were. The second conjunct exercises this at a
concrete map whose content and title contain non-ASCII characters and a
full emotion annotation. -/
theorem C4_roundtrip_persistence :
    (∀ (m : ChatHistoryMap) (fs : FileSystem) (now_ts : String),
        decodeChatHistory
          (load_chat_history (save_chat_history fs (encodeChatHistory m)) now_ts).1 = some m) ∧
    decodeChatHistory
        (load_chat_history
          (save_chat_history ⟨.absent, none⟩
            (encodeChatHistory
              [("chat_20250101_000000",
                ⟨[⟨"user", "héllo 😊 — ñandú", "2025-01-01T00:00:00",
                    some ⟨"joy", 9/10, 5,
                      some [⟨"joy", 9/10⟩, ⟨"sadness", 1/10⟩], "distilbert-emotion"⟩⟩,
                  ⟨"assistant", "¡Hola! Ça va?", "2025-01-01T00:00:01", none⟩],
                 "héllo 😊 — ñandú", "2025-01-01T00:00:02"⟩)]))
          "20250101_000003").1
      = some
          [("chat_20250101_000000",
            ⟨[⟨"user", "héllo 😊 — ñandú", "2025-01-01T00:00:00",
                some ⟨"joy", 9/10, 5,
                  some [⟨"joy", 9/10⟩, ⟨"sadness", 1/10⟩], "distilbert-emotion"⟩⟩,
              ⟨"assistant", "¡Hola! Ça va?", "2025-01-01T00:00:01", none⟩],
             "héllo 😊 — ñandú", "2025-01-01T00:00:02"⟩)] := by
  constructor
  · intro m fs now_ts
    simp [save_chat_history, load_chat_history, decodeChatHistory_encodeChatHistory]
  · simp [save_chat_history, load_chat_history, decodeChatHistory_encodeChatHistory]

/-! ## Claim C5 -/

/-- C5: `SessionManager.save_chat_history` performs read-merge-write: for
every existing on-disk multi-user document and every current user, after
the save the on-disk document is the old document with only the current
user's entry replaced — the current user maps to the newly saved history
and every other user maps to exactly the entry it had before. -/
theorem C5_save_read_merge_write (fs : FileSystem) (doc : List (String × Json))
    (user_id : String) (hist : Json)
    (h : fs.chatHistoryFile = .valid (.obj doc)) :
    (sm_save_file fs user_id hist).chatHistoryFile
        = .valid (.obj (dictInsert doc user_id hist)) ∧
    dictLookup (dictInsert doc user_id hist) user_id = some hist ∧
    ∀ u : String, u ≠ user_id →
      dictLookup (dictInsert doc user_id hist) u = dictLookup doc u := by
  refine ⟨?_, dictLookup_dictInsert_self doc user_id hist,
    fun u hu => dictLookup_dictInsert_ne doc user_id u hist hu⟩
  simp [sm_save_file, h]

theorem C5_witness :
    (sm_save_file ⟨.valid (.obj [("user_alice", Json.str "A")]), none⟩
        "user_bob" (Json.str "B")).chatHistoryFile
      = .valid (.obj (dictInsert [("user_alice", Json.str "A")] "user_bob" (Json.str "B"))) ∧
    dictLookup (dictInsert [("user_alice", Json.str "A")] "user_bob" (Json.str "B")) "user_alice"
      = dictLookup [("user_alice", Json.str "A")] "user_alice" :=
  ⟨(C5_save_read_merge_write ⟨.valid (.obj [("user_alice", Json.str "A")]), none⟩
      [("user_alice", Json.str "A")] "user_bob" (Json.str "B") rfl).1,
   (C5_save_read_merge_write ⟨.valid (.obj [("user_alice", Json.str "A")]), none⟩
      [("user_alice", Json.str "A")] "user_bob" (Json.str "B") rfl).2.2 "user_alice" (by decide)⟩

/-! ## Claim C2 -/

/-- C2 counterexample: `SessionManager._load_persisted_data` also loads a
chat-history file, and on invalid JSON bytes it swallows the exception and
returns with the in-memory history unchanged (empty here) — but the
filesystem is untouched: no backup file of any kind is produced, refuting
the claim that every chat-history load of invalid bytes produces a
timestamped backup. -/
theorem C2_counterexample :
    sm_load_persisted_data ⟨.invalid "this is not json", none⟩ "user_1" []
        = ([], ⟨.invalid "this is not json", none⟩) ∧
    (sm_load_persisted_data ⟨.invalid "this is not json", none⟩ "user_1" []).2.backupFile
        = none :=
  ⟨rfl, rfl⟩

/-- C2 (amended): for `utils.load_chat_history` the claim holds: on a file
of invalid JSON bytes it raises nothing, returns an empty mapping, and
renames the file to a timestamp-suffixed backup path distinct from the
original, whose contents are the original bytes.
`SessionManager._load_persisted_data` also does not raise and leaves the
history empty, but produces no backup file. -/
theorem C2_load_corruption_recovery (fs : FileSystem) (raw now_ts : String)
    (h : fs.chatHistoryFile = .invalid raw) :
    (load_chat_history fs now_ts).1 = .obj [] ∧
    (load_chat_history fs now_ts).2.backupFile = some (backup_name now_ts, raw) ∧
    backup_name now_ts ≠ CHAT_HISTORY_FILE := by
  refine ⟨by simp [load_chat_history, h], by simp [load_chat_history, h], ?_⟩
  intro hc
  simp only [backup_name, CHAT_HISTORY_FILE] at hc
  have hl := congrArg String.length hc
  rw [string_length_append, string_length_append] at hl
  have h1 : ("chat_history_backup_" : String).length = 20 := rfl
  have h2 : ((".json" : String)).length = 5 := rfl
  have h3 : ("chat_history.json" : String).length = 17 := rfl
  omega

theorem C2_witness :
    (load_chat_history ⟨.invalid "also not ok as json", none⟩ "20251012_130000").1
        = .obj [] ∧
    (load_chat_history ⟨.invalid "also not ok as json", none⟩ "20251012_130000").2.backupFile
        = some (backup_name "20251012_130000", "also not ok as json") ∧
    backup_name "20251012_130000" ≠ CHAT_HISTORY_FILE :=
  C2_load_corruption_recovery ⟨.invalid "also not ok as json", none⟩
    "also not ok as json" "20251012_130000" rfl

/-! ## Claim C1 -/

/-- C1 counterexample: `SessionManager.switch_chat` is a transition that
replaces the active conversation session, yet it never archives the
current session. Concretely: the active session `chat_A` holds one
message and is not in the history map; switching to the archived `chat_B`
succeeds (no warning), installs the other chat, and afterwards `chat_A`
has no entry in the map and nothing was persisted — the non-empty active
session was discarded without being archived. -/
theorem C1_counterexample :
    (switch_chat
        (⟨[⟨"user", "hello there", "t1", none⟩], "chat_A",
          [("chat_B", ⟨[], "New Chat", "t0"⟩)], "u", ⟨.absent, none⟩⟩ : SMState)
        "chat_B").1.current_chat_id = "chat_B" ∧
    (switch_chat
        (⟨[⟨"user", "hello there", "t1", none⟩], "chat_A",
          [("chat_B", ⟨[], "New Chat", "t0"⟩)], "u", ⟨.absent, none⟩⟩ : SMState)
        "chat_B").1.messages = [] ∧
    dictLookup (switch_chat
        (⟨[⟨"user", "hello there", "t1", none⟩], "chat_A",
          [("chat_B", ⟨[], "New Chat", "t0"⟩)], "u", ⟨.absent, none⟩⟩ : SMState)
        "chat_B").1.chat_history "chat_A" = none ∧
    (switch_chat
        (⟨[⟨"user", "hello there", "t1", none⟩], "chat_A",
          [("chat_B", ⟨[], "New Chat", "t0"⟩)], "u", ⟨.absent, none⟩⟩ : SMState)
        "chat_B").1.fs.chatHistoryFile = .absent ∧
    (switch_chat
        (⟨[⟨"user", "hello there", "t1", none⟩], "chat_A",
          [("chat_B", ⟨[], "New Chat", "t0"⟩)], "u", ⟨.absent, none⟩⟩ : SMState)
        "chat_B").2 = false :=
  ⟨rfl, rfl, rfl, rfl, rfl⟩

/-- C1 (amended): the archive-and-persist-unless-empty rule holds for the
sidebar transitions — the New Chat button (`handle_new_chat`) and loading
another chat (`sidebar_load_chat`): when the current session has at least
one message it is archived into the map under its `current_chat_id` (with
derived title) and the updated map is persisted, and when it has zero
messages no entry is added and the map is unchanged. The rule does NOT
extend to `SessionManager.switch_chat` (which never archives, see the
counterexample), to `SessionManager.create_new_chat` (likewise), or to
the delete transitions (which deliberately discard the deleted active
session unarchived). -/
theorem C1_sidebar_archive_unless_empty (st : AppState)
    (now_iso ts chat_id : String) (chat_data : ChatRecord) :
    ((handle_new_chat st now_iso ts).chat_history =
        (if st.messages.isEmpty then st.chat_history
         else dictInsert st.chat_history st.current_chat_id
           ⟨st.messages, get_chat_title st.messages, now_iso⟩)) ∧
    ((handle_new_chat st now_iso ts).fs =
        (if st.messages.isEmpty then st.fs
         else save_chat_history st.fs
           (encodeChatHistory (handle_new_chat st now_iso ts).chat_history))) ∧
    ((sidebar_load_chat st chat_id chat_data now_iso).chat_history =
        (if st.messages.isEmpty then st.chat_history
         else dictInsert st.chat_history st.current_chat_id
           ⟨st.messages, get_chat_title st.messages, now_iso⟩)) ∧
    ((sidebar_load_chat st chat_id chat_data now_iso).fs =
        save_chat_history st.fs
          (encodeChatHistory (sidebar_load_chat st chat_id chat_data now_iso).chat_history)) := by
  by_cases h : st.messages.isEmpty
  · simp [handle_new_chat, sidebar_load_chat, h]
  · simp [handle_new_chat, sidebar_load_chat, h]

/-! ## Claim C6 -/

/-- C6 counterexample: on the sidebar delete path the replacement id comes
from the suffix-free `utils.create_new_chat`, a pure function of the
second-granularity timestamp. Concretely: the active chat
`chat_20251012_150000` (created, used and archived within that second, as
`app.py`'s per-turn archiving does) is deleted during the same second, so
the freshly generated id is again `chat_20251012_150000`. The deletion
does happen — the entry is removed and the message list emptied — but the
new active `current_chat_id` EQUALS the deleted one, refuting the claim's
"chat_id different from the deleted one" conclusion. -/
theorem C6_counterexample :
    (sidebar_delete_chat
        (⟨[⟨"user", "hi", "2025-10-12T15:00:00", none⟩], "chat_20251012_150000",
          [("chat_20251012_150000",
            ⟨[⟨"user", "hi", "2025-10-12T15:00:00", none⟩], "hi", "2025-10-12T15:00:00"⟩)],
          ⟨.absent, none⟩⟩ : AppState)
        "chat_20251012_150000" "20251012_150000").current_chat_id
      = "chat_20251012_150000" ∧
    dictLookup (sidebar_delete_chat
        (⟨[⟨"user", "hi", "2025-10-12T15:00:00", none⟩], "chat_20251012_150000",
          [("chat_20251012_150000",
            ⟨[⟨"user", "hi", "2025-10-12T15:00:00", none⟩], "hi", "2025-10-12T15:00:00"⟩)],
          ⟨.absent, none⟩⟩ : AppState)
        "chat_20251012_150000" "20251012_150000").chat_history "chat_20251012_150000"
      = none ∧
    (sidebar_delete_chat
        (⟨[⟨"user", "hi", "2025-10-12T15:00:00", none⟩], "chat_20251012_150000",
          [("chat_20251012_150000",
            ⟨[⟨"user", "hi", "2025-10-12T15:00:00", none⟩], "hi", "2025-10-12T15:00:00"⟩)],
          ⟨.absent, none⟩⟩ : AppState)
        "chat_20251012_150000" "20251012_150000").messages = [] :=
  ⟨rfl, rfl, rfl⟩

/-- C6 (amended): deleting the currently active chat id removes that entry
from the chat-history map (given the dict invariant of unique keys),
leaves the active session with an empty message list, and persists the
updated map — on both delete paths. The new `current_chat_id` differs
from the deleted one on the `SessionManager.delete_chat` path whenever
the freshly generated timestamp-plus-uuid id differs from it (which the
random suffix provides); on the sidebar delete path the replacement id is
the suffix-free `utils.create_new_chat` timestamp id, which equals the
deleted chat_id when the deleted chat was created within the same second
(see the counterexample). -/
theorem C6_delete_active_resets :
    (∀ (st : SMState) (cid ts suffix : String) (r : ChatRecord),
        dictLookup st.chat_history cid = some r →
        cid = st.current_chat_id →
        (st.chat_history.map Prod.fst).Nodup →
        sm_new_chat_id ts suffix ≠ cid →
        dictLookup (delete_chat st cid ts suffix).chat_history cid = none ∧
        (delete_chat st cid ts suffix).messages = [] ∧
        (delete_chat st cid ts suffix).current_chat_id ≠ cid ∧
        (delete_chat st cid ts suffix).chat_history = dictErase st.chat_history cid ∧
        (delete_chat st cid ts suffix).fs
            = sm_save_file st.fs st.user_id
                (encodeChatHistory (dictErase st.chat_history cid))) ∧
    (∀ (st : AppState) (cid ts : String),
        cid = st.current_chat_id →
        (st.chat_history.map Prod.fst).Nodup →
        dictLookup (sidebar_delete_chat st cid ts).chat_history cid = none ∧
        (sidebar_delete_chat st cid ts).messages = [] ∧
        (sidebar_delete_chat st cid ts).current_chat_id = create_new_chat ts ∧
        (sidebar_delete_chat st cid ts).chat_history = dictErase st.chat_history cid ∧
        (sidebar_delete_chat st cid ts).fs
            = save_chat_history st.fs
                (encodeChatHistory (dictErase st.chat_history cid))) := by
  constructor
  · intro st cid ts suffix r hmem hcur hnodup hfresh
    have hst : delete_chat st cid ts suffix
        = sm_save_chat_history
            (sm_create_new_chat { st with chat_history := dictErase st.chat_history cid }
              ts suffix) := by
      simp [delete_chat, hmem, ← hcur]
    rw [hst]
    exact ⟨dictLookup_dictErase_self st.chat_history cid hnodup, rfl, hfresh, rfl, rfl⟩
  · intro st cid ts hcur hnodup
    have hst : sidebar_delete_chat st cid ts
        = { messages := [], current_chat_id := create_new_chat ts,
            chat_history := dictErase st.chat_history cid,
            fs := save_chat_history st.fs
              (encodeChatHistory (dictErase st.chat_history cid)) } := by
      simp [sidebar_delete_chat, ← hcur]
    rw [hst]
    exact ⟨dictLookup_dictErase_self st.chat_history cid hnodup, rfl, rfl, rfl, rfl⟩

theorem C6_witness :
    dictLookup (delete_chat
        (⟨[], "chat_A", [("chat_A", ⟨[], "New Chat", "t0"⟩)], "u", ⟨.absent, none⟩⟩ : SMState)
        "chat_A" "20251012_140000" "0f3a9b2c").chat_history "chat_A" = none ∧
    (delete_chat
        (⟨[], "chat_A", [("chat_A", ⟨[], "New Chat", "t0"⟩)], "u", ⟨.absent, none⟩⟩ : SMState)
        "chat_A" "20251012_140000" "0f3a9b2c").messages = [] ∧
    (delete_chat
        (⟨[], "chat_A", [("chat_A", ⟨[], "New Chat", "t0"⟩)], "u", ⟨.absent, none⟩⟩ : SMState)
        "chat_A" "20251012_140000" "0f3a9b2c").current_chat_id ≠ "chat_A" ∧
    dictLookup (sidebar_delete_chat
        (⟨[], "chat_B", [("chat_B", ⟨[], "New Chat", "t1"⟩)], ⟨.absent, none⟩⟩ : AppState)
        "chat_B" "20251012_160000").chat_history "chat_B" = none ∧
    (sidebar_delete_chat
        (⟨[], "chat_B", [("chat_B", ⟨[], "New Chat", "t1"⟩)], ⟨.absent, none⟩⟩ : AppState)
        "chat_B" "20251012_160000").messages = [] ∧
    (sidebar_delete_chat
        (⟨[], "chat_B", [("chat_B", ⟨[], "New Chat", "t1"⟩)], ⟨.absent, none⟩⟩ : AppState)
        "chat_B" "20251012_160000").current_chat_id = create_new_chat "20251012_160000" :=
  have h1 := C6_delete_active_resets.1
    (⟨[], "chat_A", [("chat_A", ⟨[], "New Chat", "t0"⟩)], "u", ⟨.absent, none⟩⟩ : SMState)
    "chat_A" "20251012_140000" "0f3a9b2c" ⟨[], "New Chat", "t0"⟩
    rfl rfl (by decide) (by decide)
  have h2 := C6_delete_active_resets.2
    (⟨[], "chat_B", [("chat_B", ⟨[], "New Chat", "t1"⟩)], ⟨.absent, none⟩⟩ : AppState)
    "chat_B" "20251012_160000" rfl (by decide)
  ⟨h1.1, h1.2.1, h1.2.2.1, h2.1, h2.2.1, h2.2.2.1⟩

/-! ## Claim C9 -/

/-- C9: the emotion annotator (1) returns the fixed neutral result on
empty or whitespace-only input, independently of the classifier (which is
therefore not invoked); (2) only ever passes `text[:512]` — at most 512
characters — to the classifier: the result depends on the classifier only
through its value at the truncated text; (3) a classifier label whose
lowercasing lies outside the fixed label-to-intensity mapping yields
intensity 3. -/
theorem C9_annotator_contract :
    (∀ (text : String) (c1 c2 : String → PipeResult) (mt : String),
        py_stripped_empty text = true →
        analyze_emotion text (.available c1 mt) =
          { emotion := "neutral", confidence := 1/2, intensity := 3
            raw_results := none, model_type := mt } ∧
        analyze_emotion text (.available c1 mt) = analyze_emotion text (.available c2 mt)) ∧
    (∀ text : String, (py_slice text 512).length ≤ 512) ∧
    (∀ (text : String) (c1 c2 : String → PipeResult) (mt : String),
        c1 (py_slice text 512) = c2 (py_slice text 512) →
        analyze_emotion text (.available c1 mt) = analyze_emotion text (.available c2 mt)) ∧
    (∀ (text : String) (c : String → PipeResult) (mt : String)
        (r : ScoredLabel) (rest : List ScoredLabel),
        py_stripped_empty text = false →
        c (py_slice text 512) = .flat (r :: rest) →
        py_lower (py_max r rest).label
            ∉ (["joy", "love", "surprise", "anger", "fear", "sadness"] : List String) →
        (analyze_emotion text (.available c mt)).intensity = 3) := by
  refine ⟨?_, ?_, ?_, ?_⟩
  · intro text c1 c2 mt h
    constructor
    · simp [analyze_emotion, h]
    · simp [analyze_emotion, h]
  · intro text
    show ((text.data.take 512)).length ≤ 512
    exact List.length_take_le 512 text.data
  · intro text c1 c2 mt h
    by_cases hw : py_stripped_empty text = true
    · simp [analyze_emotion, hw]
    · simp [analyze_emotion, hw, h]
  · intro text c mt r rest hws hc hlbl
    simp [analyze_emotion, hws, hc, success_result, emotion_to_intensity_unmapped _ hlbl]

theorem C9_witness :
    analyze_emotion " \t " (.available (fun _ => .raised) "distilbert-emotion") =
      { emotion := "neutral", confidence := 1/2, intensity := 3
        raw_results := none, model_type := "distilbert-emotion" } ∧
    (py_slice "how are you" 512).length ≤ 512 ∧
    analyze_emotion "hi" (.available (fun _ => .flat [⟨"JOY", 1⟩]) "m")
      = analyze_emotion "hi" (.available (fun _ => .flat [⟨"JOY", 1⟩]) "m") ∧
    (analyze_emotion "hi" (.available (fun _ => .flat [⟨"neutral", 1⟩]) "m")).intensity = 3 :=
  ⟨(C9_annotator_contract.1 " \t " (fun _ => .raised) (fun _ => .flat [])
      "distilbert-emotion" (by decide)).1,
   C9_annotator_contract.2.1 "how are you",
   C9_annotator_contract.2.2.1 "hi" (fun _ => .flat [⟨"JOY", 1⟩])
     (fun _ => .flat [⟨"JOY", 1⟩]) "m" rfl,
   C9_annotator_contract.2.2.2 "hi" (fun _ => .flat [⟨"neutral", 1⟩]) "m"
     ⟨"neutral", 1⟩ [] (by decide) rfl (by decide)⟩

/-! ## Claim C10 -/

/-- C10: for every input text and every modelled classifier behaviour
(model unavailable, classifier raising, empty or malformed result lists,
normal results), `analyze_emotion` is a total function — every Python
exception path lands in a `try`/`except` fallback — returning a result
that always carries the emotion, confidence, intensity and model_type
fields, with an integer intensity between 1 and 5. -/
theorem C10_total_and_intensity_in_range (text : String) (md : ModelData) :
    1 ≤ (analyze_emotion text md).intensity ∧ (analyze_emotion text md).intensity ≤ 5 := by
  cases md with
  | unavailable => simp [analyze_emotion, error_result]
  | available c mt =>
    by_cases hw : py_stripped_empty text = true
    · simp [analyze_emotion, hw]
    · cases hc : c (py_slice text 512) with
      | raised => simp [analyze_emotion, hw, hc, error_result]
      | flat rs =>
        cases rs with
        | nil => simp [analyze_emotion, hw, hc, error_result]
        | cons r rest =>
          simpa [analyze_emotion, hw, hc, success_result] using
            emotion_to_intensity_bounds (py_lower (py_max r rest).label)
      | nested rss =>
        cases rss with
        | nil => simp [analyze_emotion, hw, hc, error_result]
        | cons hd tl =>
          cases hd with
          | nil => simp [analyze_emotion, hw, hc, error_result]
          | cons r rest =>
            simpa [analyze_emotion, hw, hc, success_result] using
              emotion_to_intensity_bounds (py_lower (py_max r rest).label)

end Dudil
